import Mathlib

/-!
Verification of the duration model and conversion pipeline of `gif_rs`
(`src/main.rs`), a command-line tool that converts a segment of a video file
into an animated GIF via three sequential ffmpeg invocations.

Embedding conventions:
* Rust strings are embedded as `List Char`; `str` injects Lean string literals.
* `u32` values are embedded as `Nat`; arithmetic that can overflow reduces
  modulo `2 ^ 32`, and the `f64 → u32` `as` cast is the saturating cast of
  Rust (negative values map to `0`, values at or above `2 ^ 32` map to
  `2 ^ 32 - 1`).
* Floating-point values (`f64` / `f32`) are embedded as exact rationals `ℚ`;
  `f64::floor` becomes the exact rational floor, and numeric literals in the
  claims are exactly representable in this range, so nothing in the verified
  statements depends on rounding of the binary formats.
* Textual parsing of numbers models the decimal forms Rust's `FromStr`
  accepts (optional sign, digits, and for floats an optional fractional
  part); exponent and infinity/NaN forms are outside the inputs exercised
  here.
* External effects (subprocesses, console, filesystem) are embedded by a
  `World` record that fixes the answer of each external effect, and `mainModel`
  returns the exit outcome together with the ordered trace of external
  commands actually invoked.  Printing, directory creation/cleanup and
  read-line failures are elided: they carry no data used by any claim.
-/

namespace GifRs

/-- Characters of a Rust string literal, in the list-of-characters
representation used throughout this development. -/
def str (s : String) : List Char := s.data

/-- The `Duration` struct of `main.rs`: hours, minutes, seconds, each a `u32`
(represented as `Nat`). -/
structure Duration where
  h : Nat
  m : Nat
  s : Nat
deriving DecidableEq, Repr

/-- Decimal digit to character, modelling Rust's decimal integer `Display`. -/
def digitChar : Nat → Char
  | 0 => '0'
  | 1 => '1'
  | 2 => '2'
  | 3 => '3'
  | 4 => '4'
  | 5 => '5'
  | 6 => '6'
  | 7 => '7'
  | 8 => '8'
  | _ => '9'

/-- Numeric value of a digit character. -/
def digitVal (c : Char) : Nat := c.toNat - 48

/-- Value of a digit string read left to right, as Rust's integer `FromStr`
accumulates it. -/
def digitsToNat (l : List Char) : Nat := l.foldl (fun a c => a * 10 + digitVal c) 0

/-- Decimal rendering of a `Nat`, most significant digit first, as produced
by Rust's `{}` formatting of unsigned integers. -/
def natRepr (n : Nat) : List Char :=
  if _h : n < 10 then [digitChar n]
  else natRepr (n / 10) ++ [digitChar (n % 10)]
termination_by n
decreasing_by exact Nat.div_lt_self (by omega) (by omega)

/-- Decimal rendering of an `Int`, as produced by Rust's `{}` formatting of
signed integers. -/
def intRepr (i : Int) : List Char :=
  if i < 0 then '-' :: natRepr i.natAbs else natRepr i.natAbs

/-- Model of Rust's `str::split(sep)`: splits into the (possibly empty)
pieces between occurrences of `sep`.  An empty input yields one empty
piece, exactly as in Rust. -/
def splitOn (sep : Char) : List Char → List (List Char)
  | [] => [[]]
  | c :: cs =>
    if c = sep then [] :: splitOn sep cs
    else
      match splitOn sep cs with
      | [] => [[c]]
      | p :: ps => (c :: p) :: ps

/-- Model of `u32::from_str` (`parts[i].parse::<u32>()` in `main.rs`):
an optional leading `+`, then at least one ASCII digit, with the value
required to fit in a `u32`. -/
def parseU32 (s : List Char) : Option Nat :=
  let t := if s.head? = some '+' then s.tail else s
  if t ≠ [] ∧ t.all Char.isDigit = true ∧ digitsToNat t < 4294967296 then
    some (digitsToNat t)
  else none

/-- Strips one leading sign character, reporting whether it was `-`. -/
def stripSign : List Char → Bool × List Char
  | '-' :: r => (true, r)
  | '+' :: r => (false, r)
  | r => (false, r)

/-- Model of Rust's float `FromStr` (`parse::<f64>()` / `parse::<f32>()`) on
the decimal forms relevant here: optional sign, an integer part and an
optional fractional part separated by `.`, at least one digit overall.
The value is the exact rational the decimal denotes. -/
def parseRat (s : List Char) : Option ℚ :=
  let p := stripSign s
  let val : Option ℚ :=
    match splitOn '.' p.2 with
    | [a] =>
      if a ≠ [] ∧ a.all Char.isDigit = true then some ((digitsToNat a : ℚ)) else none
    | [a, b] =>
      if a ++ b ≠ [] ∧ a.all Char.isDigit = true ∧ b.all Char.isDigit = true then
        some ((digitsToNat a : ℚ) + (digitsToNat b : ℚ) / (10 : ℚ) ^ b.length)
      else none
    | _ => none
  val.map (fun v => if p.1 then -v else v)

/-- Model of `i32::from_str`: optional sign, digits, value within the `i32`
range. -/
def parseI32 (s : List Char) : Option Int :=
  let p := stripSign s
  if p.2 ≠ [] ∧ p.2.all Char.isDigit = true then
    let v : Int := if p.1 then -(digitsToNat p.2 : Int) else (digitsToNat p.2 : Int)
    if -2147483648 ≤ v ∧ v ≤ 2147483647 then some v else none
  else none

/-- Exact floor of a rational, modelling `f64::floor`. -/
def ratFloor (x : ℚ) : Int := Int.fdiv x.num (x.den : Int)

/-- Error value of `Duration::from_str`, distinguishing a wrong component
count from the component that failed to parse, following the
`anyhow::Context` messages in the source. -/
inductive ParseErr where
  | hours
  | minutes
  | seconds
  | invalidFormat
deriving DecidableEq, Repr

/-- `Duration::from_str` from `main.rs`: split on `:`; one part is seconds,
two parts are minutes:seconds, three parts are hours:minutes:seconds, any
other count is `Invalid duration format`; each part parses as `u32`. -/
def Duration.from_str (input : List Char) : Except ParseErr Duration :=
  match splitOn ':' input with
  | [p0] =>
    match parseU32 p0 with
    | some s => .ok ⟨0, 0, s⟩
    | none => .error .seconds
  | [p0, p1] =>
    match parseU32 p0 with
    | some m =>
      match parseU32 p1 with
      | some s => .ok ⟨0, m, s⟩
      | none => .error .seconds
    | none => .error .minutes
  | [p0, p1, p2] =>
    match parseU32 p0 with
    | some h =>
      match parseU32 p1 with
      | some m =>
        match parseU32 p2 with
        | some s => .ok ⟨h, m, s⟩
        | none => .error .seconds
      | none => .error .minutes
    | none => .error .hours
  | _ => .error .invalidFormat

/-- `Duration::from_seconds` from `main.rs`: `seconds.floor() as u32`
(saturating cast), then division/remainder decomposition into h/m/s. -/
def Duration.from_seconds (seconds : ℚ) : Duration :=
  let total_seconds := min (ratFloor seconds).toNat 4294967295
  ⟨total_seconds / 3600, (total_seconds % 3600) / 60, total_seconds % 60⟩

/-- `Duration::to_seconds` from `main.rs`, exactly as written there:
`self.h * 3600 * self.m * 60 + self.s`, in wrapping `u32` arithmetic. -/
def Duration.to_seconds (d : Duration) : Nat :=
  (d.h * 3600 * d.m * 60 + d.s) % 4294967296

/-- The `Display` implementation for `Duration` in `main.rs`:
`"{}:{}:{}"` with plain decimal components, no zero padding. -/
def Duration.format (d : Duration) : List Char :=
  natRepr d.h ++ ':' :: natRepr d.m ++ ':' :: natRepr d.s

/-- Decimal rendering of a `ℚ` value standing in for a Rust `f32`/`f64`
`Display` rendering.  The claims verified here never depend on the digits
chosen for a fractional value, only on which numeric value is rendered. -/
def showRat (q : ℚ) : List Char :=
  if q.den = 1 then intRepr q.num else intRepr q.num ++ '/' :: natRepr q.den

/-- A stream descriptor of the ffprobe JSON document (`StreamInfo` in
`main.rs`): optional width/height, a codec-type tag, and a textual frame
rate. -/
structure StreamInfo where
  width : Option Nat
  height : Option Nat
  codec_type : List Char
  r_frame_rate : List Char
deriving DecidableEq, Repr

/-- The format descriptor of the ffprobe JSON document (`FormatInfo` in
`main.rs`): the container duration in seconds, as a decimal string. -/
structure FormatInfo where
  duration : List Char
deriving DecidableEq, Repr

/-- The parsed ffprobe document (`ProbeInfo` in `main.rs`). -/
structure ProbeInfo where
  streams : List StreamInfo
  format : FormatInfo
deriving DecidableEq, Repr

/-- The `Resolution` struct of `main.rs`. -/
structure Resolution where
  width : Nat
  height : Nat
deriving DecidableEq, Repr

/-- The pure tail of `get_file_info` in `main.rs`, applied to the parsed
ffprobe document: select the first stream whose codec type is `video`,
require its width and height, parse the container duration and convert it
with `Duration::from_seconds`, and parse the frame rate as an exact
two-part rational `numerator/denominator`. -/
def extract_info (info : ProbeInfo) : Except (List Char) (Resolution × Duration × ℚ) :=
  match info.streams.find? (fun t => t.codec_type == str "video") with
  | none => .error (str "No video stream found")
  | some stream =>
    match stream.width with
    | none => .error (str "Width not found")
    | some width =>
      match stream.height with
      | none => .error (str "Height not found")
      | some height =>
        match parseRat info.format.duration with
        | none => .error (str "Invalid duration")
        | some dsecs =>
          match splitOn '/' stream.r_frame_rate with
          | [a, b] =>
            match parseRat a with
            | none => .error (str "Invalid FPS numerator")
            | some numerator =>
              match parseRat b with
              | none => .error (str "Invalid FPS denominator")
              | some denominator =>
                .ok (⟨width, height⟩, Duration.from_seconds dsecs, numerator / denominator)
          | _ => .error (str "Invalid FPS format")

/-- Model of Rust's `str::trim` on the console lines read by `main`. -/
def trim (s : List Char) : List Char :=
  ((s.dropWhile Char.isWhitespace).reverse.dropWhile Char.isWhitespace).reverse

/-- Start time derivation in `main`: an empty (trimmed) line means
`Duration::from_seconds(0.0)`, otherwise the line is parsed. -/
def start_time_of (input : List Char) : Except ParseErr Duration :=
  if trim input = [] then .ok (Duration.from_seconds 0) else Duration.from_str (trim input)

/-- End time derivation in `main`: an empty (trimmed) line means the probed
duration, otherwise the line is parsed. -/
def end_time_of (input : List Char) (probed : Duration) : Except ParseErr Duration :=
  if trim input = [] then .ok probed else Duration.from_str (trim input)

/-- The `framecount` computation of `main`, line 98:
`(end_time.to_seconds() as f32 - start_time.to_seconds() as f32) * fps`. -/
def framecount (start_time end_time : Duration) (fps : ℚ) : ℚ :=
  ((end_time.to_seconds : ℚ) - (start_time.to_seconds : ℚ)) * fps

/-- Start frame derivation in `main`: empty line means `1`, otherwise the
line must parse as an integer (a parse failure panics). -/
def start_frame_of (input : List Char) : Option Int :=
  if trim input = [] then some 1 else parseI32 (trim input)

/-- End frame derivation in `main`: empty line means the previously computed
`framecount`, otherwise the line must parse as a float. -/
def end_frame_of (input : List Char) (fc : ℚ) : Option ℚ :=
  if trim input = [] then some fc else parseRat (trim input)

/-- Which call site of `main` an external command belongs to. -/
inductive CallTag where
  | probe
  | thumbnails
  | palette
  | encode
deriving DecidableEq, Repr

/-- An external command invocation: call site, program, arguments. -/
structure Cmd where
  tag : CallTag
  prog : List Char
  args : List (List Char)
deriving DecidableEq, Repr

/-- The ffprobe invocation of `get_file_info`. -/
def probeCmd (filename : List Char) : Cmd :=
  ⟨.probe, str "ffprobe",
    [str "-v", str "quiet", str "-print_format", str "json",
     str "-show_format", str "-show_streams", filename]⟩

/-- Arguments of the first ffmpeg call (thumbnail extraction),
`main.rs` lines 110–131. -/
def thumbArgs (input_file : List Char) (start_time end_time : Duration) (fps : ℚ) :
    List (List Char) :=
  [str "-hide_banner", str "-nostats", str "-v", str "warning",
   str "-ss", start_time.format, str "-to", end_time.format,
   str "-i", input_file, str "-fps_mode", str "vfr",
   str "-lavfi", str "fps=" ++ showRat fps ++ str ",scale=600:-1:flags=lanczos",
   str "-q:v", str "15", str "-y",
   str "./" ++ str "output_frames" ++ str "/%04d.jpg"]

/-- The filter graph of the palette-generation call, `main.rs` lines 169–172. -/
def paletteFilter (fps : ℚ) (start_frame : Int) (end_frame : ℚ) (width : Nat) :
    List Char :=
  str "fps=" ++ showRat fps ++ str ",trim=start_frame=" ++ intRepr start_frame ++
    str ":end_frame=" ++ showRat end_frame ++ str ",setpts=PTS-STARTPTS,scale=" ++
    natRepr width ++ str ":-1:flags=lanczos,palettegen=stats_mode=diff"

/-- Arguments of the second ffmpeg call (palette generation),
`main.rs` lines 154–176. -/
def paletteArgs (input_file : List Char) (start_time end_time : Duration) (fps : ℚ)
    (start_frame : Int) (end_frame : ℚ) (width : Nat) : List (List Char) :=
  [str "-hide_banner", str "-nostats", str "-v", str "warning",
   str "-ss", start_time.format, str "-to", end_time.format,
   str "-i", input_file, str "-fps_mode", str "vfr",
   str "-lavfi", paletteFilter fps start_frame end_frame width,
   str "-y", str "palette.png"]

/-- The filter graph of the final paletted encode, `main.rs` lines 196–199. -/
def encodeFilter (fps : ℚ) (start_frame : Int) (end_frame : ℚ) (width : Nat) :
    List Char :=
  str "fps=" ++ showRat fps ++ str ",trim=start_frame=" ++ intRepr start_frame ++
    str ":end_frame=" ++ showRat end_frame ++ str ",setpts=PTS-STARTPTS,scale=" ++
    natRepr width ++ str ":-1:flags=lanczos[x];[x][1:v]paletteuse=dither=bayer:bayer_scale=3"

/-- Arguments of the third ffmpeg call (paletted encode),
`main.rs` lines 179–203. -/
def encodeArgs (input_file : List Char) (start_time end_time : Duration) (fps : ℚ)
    (start_frame : Int) (end_frame : ℚ) (width : Nat) (output_file : List Char) :
    List (List Char) :=
  [str "-hide_banner", str "-nostats", str "-v", str "warning",
   str "-ss", start_time.format, str "-to", end_time.format,
   str "-i", input_file, str "-i", str "palette.png",
   str "-fps_mode", str "vfr",
   str "-lavfi", encodeFilter fps start_frame end_frame width,
   str "-y", output_file]

/-- How a run of `main` terminates.  `usage` is the early `return Ok(())`
after printing the usage line; `success` is the normal `Ok(())` at the end;
`failure` is an `Err` return or a panic, carrying the reported message. -/
inductive RunExit where
  | usage
  | success
  | failure (msg : List Char)
deriving DecidableEq, Repr

/-- Process exit status: Rust's runtime exits `0` exactly when `main`
returns `Ok`; an `Err` return or a panic exits non-zero. -/
def RunExit.code : RunExit → Nat
  | .usage => 0
  | .success => 0
  | .failure _ => 1

/-- Result of a modelled run: how it exited, and the ordered trace of
external commands that were actually invoked. -/
structure RunResult where
  exit : RunExit
  calls : List Cmd
deriving DecidableEq, Repr

/-- The answers the environment gives to each external effect of one run of
`main`: the command-line arguments, the parsed ffprobe document (`none`
models unparseable ffprobe output), the six console lines read, and the
exit status of each of the three ffmpeg invocations. -/
structure World where
  argv : List (List Char)
  probeInfo : Option ProbeInfo
  startInput : List Char
  endInput : List Char
  fpsInput : List Char
  widthInput : List Char
  startFrameInput : List Char
  endFrameInput : List Char
  thumbOk : Bool
  paletteOk : Bool
  encodeOk : Bool

/-- The observable behaviour of `main` in `main.rs`, as a function of the
`World`: faithful to the source's control flow (argument count check, probe,
start/end prompts, thumbnail call, frame prompts, palette call, encode
call, each ffmpeg call gated by `check_command_success`).  Console printing,
`fs::create_dir`, and the post-success cleanup are elided, as is the value
of the ignored FPS and width prompts. -/
def mainModel (w : World) : RunResult :=
  match w.argv with
  | [_prog, input_file] =>
    match w.probeInfo with
    | none => ⟨.failure (str "Failed to parse ffprobe output"), [probeCmd input_file]⟩
    | some info =>
      match extract_info info with
      | .error e => ⟨.failure e, [probeCmd input_file]⟩
      | .ok (resolution, duration, fps) =>
        match start_time_of w.startInput with
        | .error _ => ⟨.failure (str "Failed to parse start time"), [probeCmd input_file]⟩
        | .ok start_time =>
          match end_time_of w.endInput duration with
          | .error _ => ⟨.failure (str "Failed to parse end time"), [probeCmd input_file]⟩
          | .ok end_time =>
            if w.thumbOk then
              match start_frame_of w.startFrameInput with
              | none =>
                ⟨.failure (str "Start frame is not number"),
                  [probeCmd input_file,
                   ⟨.thumbnails, str "ffmpeg", thumbArgs input_file start_time end_time fps⟩]⟩
              | some start_frame =>
                match end_frame_of w.endFrameInput (framecount start_time end_time fps) with
                | none =>
                  ⟨.failure (str "Start frame is not number"),
                    [probeCmd input_file,
                     ⟨.thumbnails, str "ffmpeg", thumbArgs input_file start_time end_time fps⟩]⟩
                | some end_frame =>
                  if w.paletteOk then
                    if w.encodeOk then
                      ⟨.success,
                        [probeCmd input_file,
                         ⟨.thumbnails, str "ffmpeg",
                           thumbArgs input_file start_time end_time fps⟩,
                         ⟨.palette, str "ffmpeg",
                           paletteArgs input_file start_time end_time fps
                             start_frame end_frame resolution.width⟩,
                         ⟨.encode, str "ffmpeg",
                           encodeArgs input_file start_time end_time fps
                             start_frame end_frame resolution.width
                             ((splitOn '.' input_file).headD (str "output") ++ str ".gif")⟩]⟩
                    else
                      ⟨.failure (str "Command failed"),
                        [probeCmd input_file,
                         ⟨.thumbnails, str "ffmpeg",
                           thumbArgs input_file start_time end_time fps⟩,
                         ⟨.palette, str "ffmpeg",
                           paletteArgs input_file start_time end_time fps
                             start_frame end_frame resolution.width⟩,
                         ⟨.encode, str "ffmpeg",
                           encodeArgs input_file start_time end_time fps
                             start_frame end_frame resolution.width
                             ((splitOn '.' input_file).headD (str "output") ++ str ".gif")⟩]⟩
                  else
                    ⟨.failure (str "Command failed"),
                      [probeCmd input_file,
                       ⟨.thumbnails, str "ffmpeg",
                         thumbArgs input_file start_time end_time fps⟩,
                       ⟨.palette, str "ffmpeg",
                         paletteArgs input_file start_time end_time fps
                           start_frame end_frame resolution.width⟩]⟩
            else
              ⟨.failure (str "Command failed"),
                [probeCmd input_file,
                 ⟨.thumbnails, str "ffmpeg", thumbArgs input_file start_time end_time fps⟩]⟩
  | _ => ⟨.usage, []⟩

instance {ε α : Type} [DecidableEq ε] [DecidableEq α] : DecidableEq (Except ε α) := fun a b =>
  match a, b with
  | .ok a, .ok b =>
    if h : a = b then isTrue (by rw [h]) else isFalse (fun hc => h (Except.ok.inj hc))
  | .error a, .error b =>
    if h : a = b then isTrue (by rw [h]) else isFalse (fun hc => h (Except.error.inj hc))
  | .ok _, .error _ => isFalse (fun hc => Except.noConfusion hc)
  | .error _, .ok _ => isFalse (fun hc => Except.noConfusion hc)

/-- The decomposition stated by the specification for `FromSeconds`
(refinement comparison): truncate to a whole-second total — on the
specification's non-negative domain, truncation toward zero coincides with
the floor the code computes — and decompose it, with no clamping of the
total.  To be compared against `Duration.from_seconds`. -/
def from_seconds_spec (x : ℚ) : Duration :=
  ⟨(ratFloor x).toNat / 3600, ((ratFloor x).toNat % 3600) / 60, (ratFloor x).toNat % 60⟩

/-- A probe document with one audio stream and one 1920x1080 video stream at
30/1 fps, container duration 10 seconds. -/
def sampleProbe : ProbeInfo :=
  ⟨[⟨none, none, str "audio", str "0/0"⟩,
    ⟨some 1920, some 1080, str "video", str "30/1"⟩],
   ⟨str "10"⟩⟩

/-- A run whose first ffmpeg invocation fails. -/
def sampleWorldThumbFail : World :=
  ⟨[str "gif_rs", str "input.mp4"], some sampleProbe,
   [], [], [], [], [], [], false, true, true⟩

/-- A run invoked with no command-line argument. -/
def sampleWorldUsage : World :=
  ⟨[], some sampleProbe, [], [], [], [], [], [], true, true, true⟩

/-! ### Digit and decimal-rendering lemmas -/

theorem digitChar_isDigit (n : Nat) : (digitChar n).isDigit = true := by
  rcases n with _|_|_|_|_|_|_|_|_|n <;> rfl

theorem digitVal_digitChar {n : Nat} (h : n < 10) : digitVal (digitChar n) = n := by
  rcases n with _|_|_|_|_|_|_|_|_|_|n <;> first | rfl | exact absurd h (by omega)

theorem digitsToNat_concat (l : List Char) (c : Char) :
    digitsToNat (l ++ [c]) = digitsToNat l * 10 + digitVal c := by
  simp [digitsToNat, List.foldl_append]

theorem digitsToNat_singleton (c : Char) : digitsToNat [c] = digitVal c := by
  simp [digitsToNat]

theorem digitsToNat_natRepr (n : Nat) : digitsToNat (natRepr n) = n := by
  rw [natRepr]
  split
  · rw [digitsToNat_singleton, digitVal_digitChar ‹n < 10›]
  · rw [digitsToNat_concat, digitsToNat_natRepr (n / 10),
      digitVal_digitChar (Nat.mod_lt _ (by omega))]
    omega
termination_by n
decreasing_by exact Nat.div_lt_self (by omega) (by omega)

theorem mem_natRepr_isDigit (n : Nat) : ∀ c ∈ natRepr n, c.isDigit = true := by
  rw [natRepr]
  split
  · intro c hc
    rw [List.mem_singleton.mp hc]
    exact digitChar_isDigit n
  · intro c hc
    rcases List.mem_append.mp hc with h1 | h2
    · exact mem_natRepr_isDigit (n / 10) c h1
    · rw [List.mem_singleton.mp h2]
      exact digitChar_isDigit _
termination_by n
decreasing_by exact Nat.div_lt_self (by omega) (by omega)

theorem natRepr_ne_nil (n : Nat) : natRepr n ≠ [] := by
  rw [natRepr]
  split <;> simp

theorem mem_natRepr_ne_colon (n : Nat) : ∀ c ∈ natRepr n, c ≠ ':' := by
  intro c hc hEq
  have h := mem_natRepr_isDigit n c hc
  rw [hEq] at h
  exact absurd h (by decide)

/-! ### Lemmas about `splitOn` -/

theorem splitOn_sepFree (sep : Char) (l : List Char) (h : ∀ c ∈ l, c ≠ sep) :
    splitOn sep l = [l] := by
  induction l with
  | nil => rfl
  | cons c cs ih =>
    rw [splitOn, if_neg (h c (List.mem_cons_self c cs)),
      ih (fun x hx => h x (List.mem_cons_of_mem c hx))]

theorem splitOn_append (sep : Char) (a b : List Char) (h : ∀ c ∈ a, c ≠ sep) :
    splitOn sep (a ++ sep :: b) = a :: splitOn sep b := by
  induction a with
  | nil =>
    rw [List.nil_append, splitOn, if_pos rfl]
  | cons c cs ih =>
    rw [List.cons_append, splitOn, if_neg (h c (List.mem_cons_self c cs)),
      ih (fun x hx => h x (List.mem_cons_of_mem c hx))]

/-! ### Lemmas about `parseU32` -/

theorem parseU32_natRepr {n : Nat} (h : n < 4294967296) :
    parseU32 (natRepr n) = some n := by
  have hplus : ¬ (natRepr n).head? = some '+' := by
    cases hh : natRepr n with
    | nil => exact absurd hh (natRepr_ne_nil n)
    | cons c cs =>
      have hcd : c.isDigit = true :=
        mem_natRepr_isDigit n c (by rw [hh]; exact List.mem_cons_self c cs)
      simp only [List.head?_cons, Option.some.injEq]
      intro hEq
      rw [hEq] at hcd
      exact absurd hcd (by decide)
  have hall : (natRepr n).all Char.isDigit = true :=
    List.all_eq_true.mpr (fun c hc => mem_natRepr_isDigit n c hc)
  simp only [parseU32, if_neg hplus]
  rw [if_pos ⟨natRepr_ne_nil n, hall, by rw [digitsToNat_natRepr]; exact h⟩,
    digitsToNat_natRepr]

/-! ### Case lemmas for `Duration.from_str` -/

theorem from_str_of_one {input p0 : List Char} (h : splitOn ':' input = [p0]) :
    Duration.from_str input =
      (parseU32 p0).elim (.error .seconds) (fun s => .ok ⟨0, 0, s⟩) := by
  unfold Duration.from_str
  rw [h]
  cases hp0 : parseU32 p0 <;> simp [hp0]

theorem from_str_of_two {input p0 p1 : List Char} (h : splitOn ':' input = [p0, p1]) :
    Duration.from_str input =
      (parseU32 p0).elim (.error .minutes) (fun m =>
        (parseU32 p1).elim (.error .seconds) (fun s => .ok ⟨0, m, s⟩)) := by
  unfold Duration.from_str
  rw [h]
  cases hp0 : parseU32 p0 <;> cases hp1 : parseU32 p1 <;> simp [hp0, hp1]

theorem from_str_of_three {input p0 p1 p2 : List Char}
    (h : splitOn ':' input = [p0, p1, p2]) :
    Duration.from_str input =
      (parseU32 p0).elim (.error .hours) (fun hrs =>
        (parseU32 p1).elim (.error .minutes) (fun m =>
          (parseU32 p2).elim (.error .seconds) (fun s => .ok ⟨hrs, m, s⟩))) := by
  unfold Duration.from_str
  rw [h]
  cases hp0 : parseU32 p0 <;> cases hp1 : parseU32 p1 <;> cases hp2 : parseU32 p2 <;>
    simp [hp0, hp1, hp2]

/-! ### Floor bridge and canonicity of `from_seconds` -/

theorem ratFloor_eq_floor (q : ℚ) : ratFloor q = ⌊q⌋ := by
  unfold ratFloor
  rw [Rat.floor_def, Int.fdiv_eq_ediv _ (by positivity)]

theorem from_seconds_m_le (x : ℚ) : (Duration.from_seconds x).m ≤ 59 := by
  simp only [Duration.from_seconds]
  omega

theorem from_seconds_s_le (x : ℚ) : (Duration.from_seconds x).s ≤ 59 := by
  simp only [Duration.from_seconds]
  omega

theorem extract_info_ok_duration {info : ProbeInfo} {res : Resolution}
    {d : Duration} {fps : ℚ} (h : extract_info info = .ok (res, d, fps)) :
    ∃ q, d = Duration.from_seconds q := by
  unfold extract_info at h
  repeat' split at h
  all_goals simp_all
  exact ⟨_, h.2.1.symm⟩

/-! ### Claim C1 -/

/-- C1: the claim demands `ToSeconds({h:1, m:30, s:15}) = 5415`
(`h*3600 + m*60 + s`); the code as written computes
`h*3600*m*60 + s = 6480015` on that input, a defect the specification
itself flags.  This theorem records the observed value and that it differs
from the required one. -/
theorem to_seconds_multiplicative_observed :
    Duration.to_seconds ⟨1, 30, 15⟩ = 6480015 ∧
      Duration.to_seconds ⟨1, 30, 15⟩ ≠ 1 * 3600 + 30 * 60 + 15 := by
  decide

/-! ### Claim C2 -/

/-- C2: `Duration::from_str` splits on `:`; one part is seconds only, two
parts are minutes:seconds, three parts are hours:minutes:seconds, any other
part count is an error, and a part that does not parse as a `u32` is an
error; with the four concrete examples of the claim. -/
theorem from_str_case_analysis :
    (∀ input p0 : List Char, splitOn ':' input = [p0] →
      Duration.from_str input =
        (parseU32 p0).elim (.error .seconds) (fun s => .ok ⟨0, 0, s⟩)) ∧
    (∀ input p0 p1 : List Char, splitOn ':' input = [p0, p1] →
      Duration.from_str input =
        (parseU32 p0).elim (.error .minutes) (fun m =>
          (parseU32 p1).elim (.error .seconds) (fun s => .ok ⟨0, m, s⟩))) ∧
    (∀ input p0 p1 p2 : List Char, splitOn ':' input = [p0, p1, p2] →
      Duration.from_str input =
        (parseU32 p0).elim (.error .hours) (fun hrs =>
          (parseU32 p1).elim (.error .minutes) (fun m =>
            (parseU32 p2).elim (.error .seconds) (fun s => .ok ⟨hrs, m, s⟩)))) ∧
    (∀ input : List Char,
      ¬ ((splitOn ':' input).length = 1 ∨ (splitOn ':' input).length = 2 ∨
          (splitOn ':' input).length = 3) →
      Duration.from_str input = .error .invalidFormat) ∧
    Duration.from_str (str "90") = .ok ⟨0, 0, 90⟩ ∧
    Duration.from_str (str "1:05") = .ok ⟨0, 1, 5⟩ ∧
    Duration.from_str (str "2:00:30") = .ok ⟨2, 0, 30⟩ ∧
    Duration.from_str (str "1:2:3:4") = .error .invalidFormat := by
  refine ⟨fun _ _ h => from_str_of_one h, fun _ _ _ h => from_str_of_two h,
    fun _ _ _ _ h => from_str_of_three h, ?_, by decide, by decide, by decide, by decide⟩
  intro input h
  rcases hs : splitOn ':' input with _ | ⟨a, _ | ⟨b, _ | ⟨c, _ | _⟩⟩⟩ <;>
    rw [hs] at h <;> try simp at h
  · unfold Duration.from_str
    rw [hs]
  · unfold Duration.from_str
    rw [hs]

/-- Witness for C2, applying the three-part case at a concrete split. -/
theorem from_str_case_analysis_witness :
    Duration.from_str (str "7:08:09") =
      (parseU32 (str "7")).elim (.error .hours) (fun hrs =>
        (parseU32 (str "08")).elim (.error .minutes) (fun m =>
          (parseU32 (str "09")).elim (.error .seconds) (fun s => .ok ⟨hrs, m, s⟩))) :=
  from_str_case_analysis.2.2.1 (str "7:08:09") (str "7") (str "08") (str "09") (by decide)

/-! ### Claim C3 -/

/-- C3: for a `Duration` with canonical minutes and seconds (0–59) and any
`u32` hours value, parsing the formatted rendering returns the same
`Duration`. -/
theorem parse_format_roundtrip (d : Duration) (hm : d.m ≤ 59) (hs : d.s ≤ 59)
    (hh : d.h < 4294967296) : Duration.from_str d.format = .ok d := by
  have hsplit : splitOn ':' d.format = [natRepr d.h, natRepr d.m, natRepr d.s] := by
    unfold Duration.format
    rw [List.append_assoc, List.cons_append,
      splitOn_append ':' _ _ (mem_natRepr_ne_colon d.h),
      splitOn_append ':' _ _ (mem_natRepr_ne_colon d.m),
      splitOn_sepFree ':' _ (mem_natRepr_ne_colon d.s)]
  rw [from_str_of_three hsplit, parseU32_natRepr hh,
    parseU32_natRepr (show d.m < 4294967296 by omega),
    parseU32_natRepr (show d.s < 4294967296 by omega)]
  rfl

/-- Witness for C3 at a concrete canonical duration. -/
theorem parse_format_roundtrip_witness :
    Duration.from_str (Duration.format ⟨123, 4, 56⟩) = .ok ⟨123, 4, 56⟩ :=
  parse_format_roundtrip ⟨123, 4, 56⟩ (by decide) (by decide) (by decide)

/-! ### Claim C4 -/

/-- C4 counterexample: at the non-negative input `2^32`, the code's
saturating `as u32` cast clamps the whole-second total to `2^32 - 1`, so
the claimed unclamped decomposition (seconds component `16`) differs from
the computed one (seconds component `15`). -/
theorem from_seconds_clamp_counterexample :
    Duration.from_seconds (4294967296 : ℚ) = ⟨1193046, 28, 15⟩ ∧
    from_seconds_spec (4294967296 : ℚ) = ⟨1193046, 28, 16⟩ ∧
    Duration.from_seconds (4294967296 : ℚ) ≠ from_seconds_spec (4294967296 : ℚ) := by
  refine ⟨by decide, by decide, by decide⟩

/-- C4 as amended: for every non-negative input whose floor stays below
`2^32`, `from_seconds` truncates to a whole-second total and decomposes it
as `h = total/3600`, `m = (total%3600)/60`, `s = total%60`; and the claim's
concrete example `FromSeconds(3661.9) = {1,1,1}` holds. -/
theorem from_seconds_decomposition_amended :
    (∀ x : ℚ, 0 ≤ x → ratFloor x < 4294967296 →
      Duration.from_seconds x = from_seconds_spec x) ∧
    Duration.from_seconds (3661.9 : ℚ) = ⟨1, 1, 1⟩ := by
  constructor
  · intro x _hx hfl
    unfold Duration.from_seconds from_seconds_spec
    rw [min_eq_left (by omega)]
  · have h9 : ratFloor (3661.9 : ℚ) = 3661 := by
      rw [ratFloor_eq_floor]
      norm_num
    simp only [Duration.from_seconds, h9]
    decide

/-- Witness for the amended C4 at the input `0`. -/
theorem from_seconds_decomposition_amended_witness :
    Duration.from_seconds (0 : ℚ) = from_seconds_spec (0 : ℚ) :=
  from_seconds_decomposition_amended.1 0 (by decide) (by decide)

/-! ### Claim C10 -/

/-- C10: every `Duration` produced by `from_seconds` has canonical minutes
and seconds (at most 59), hence so does every duration in a successful
probe extraction and the empty-input start-time default. -/
theorem from_seconds_canonical :
    (∀ x : ℚ, (Duration.from_seconds x).m ≤ 59 ∧ (Duration.from_seconds x).s ≤ 59) ∧
    (∀ (info : ProbeInfo) (res : Resolution) (d : Duration) (fps : ℚ),
      extract_info info = .ok (res, d, fps) → d.m ≤ 59 ∧ d.s ≤ 59) ∧
    (∀ (input : List Char) (d : Duration), trim input = [] →
      start_time_of input = .ok d → d.m ≤ 59 ∧ d.s ≤ 59) := by
  refine ⟨fun x => ⟨from_seconds_m_le x, from_seconds_s_le x⟩, ?_, ?_⟩
  · intro info res d fps h
    obtain ⟨q, rfl⟩ := extract_info_ok_duration h
    exact ⟨from_seconds_m_le q, from_seconds_s_le q⟩
  · intro input d hempty h
    unfold start_time_of at h
    rw [if_pos hempty] at h
    cases h
    exact ⟨from_seconds_m_le 0, from_seconds_s_le 0⟩

/-- Witness for C10 on the sample probe document. -/
theorem from_seconds_canonical_witness :
    (Duration.from_seconds ((10 : Nat) : ℚ)).m ≤ 59 ∧
      (Duration.from_seconds ((10 : Nat) : ℚ)).s ≤ 59 :=
  from_seconds_canonical.2.1 sampleProbe ⟨1920, 1080⟩
    (Duration.from_seconds ((10 : Nat) : ℚ))
    (((30 : Nat) : ℚ) / ((1 : Nat) : ℚ)) rfl

/-! ### Claim C5 -/

/-- C5: the default end-frame value is exactly the `framecount`
`(end.to_seconds - start.to_seconds) * fps` computed with the program's own
`to_seconds`; and in the end-to-end instance with probed duration 10
seconds and fps 30, empty start and end inputs yield start `0:0:0`, end
`0:0:10`, and a framecount of 300. -/
theorem end_frame_default_formula :
    (∀ (s e : Duration) (fps : ℚ) (input : List Char), trim input = [] →
      end_frame_of input (framecount s e fps) =
        some (((e.to_seconds : ℚ) - (s.to_seconds : ℚ)) * fps)) ∧
    start_time_of (str "") = .ok ⟨0, 0, 0⟩ ∧
    end_time_of (str "") (Duration.from_seconds 10) = .ok ⟨0, 0, 10⟩ ∧
    framecount ⟨0, 0, 0⟩ ⟨0, 0, 10⟩ 30 = 300 := by
  refine ⟨?_, by decide, by decide, ?_⟩
  · intro s e fps input h
    unfold end_frame_of
    rw [if_pos h]
    rfl
  · unfold framecount Duration.to_seconds
    norm_num

/-- Witness for C5: with an empty end-frame line, the end frame defaults to
the `to_seconds`-based framecount. -/
theorem end_frame_default_formula_witness :
    end_frame_of [] (framecount ⟨0, 0, 0⟩ ⟨0, 0, 10⟩ 30) =
      some ((((⟨0, 0, 10⟩ : Duration).to_seconds : ℚ) -
        ((⟨0, 0, 0⟩ : Duration).to_seconds : ℚ)) * 30) :=
  end_frame_default_formula.1 ⟨0, 0, 0⟩ ⟨0, 0, 10⟩ 30 [] rfl

/-! ### Claim C6 -/

/-- C6: the probe extraction takes the first stream whose codec type is
`video`; it errors when there is none, when that stream lacks width or
height, or when its frame rate is not a two-part rational
`numerator/denominator`; when everything (including the decimal duration)
is present it returns the stream's width and height, the duration converted
through `from_seconds`, and `numerator/denominator` as the fps. -/
theorem extract_info_cases :
    (∀ info : ProbeInfo, (∀ t ∈ info.streams, t.codec_type ≠ str "video") →
      extract_info info = .error (str "No video stream found")) ∧
    (∀ (info : ProbeInfo) (s : StreamInfo),
      info.streams.find? (fun t => t.codec_type == str "video") = some s →
      s.width = none ∨ s.height = none →
      ∃ msg, extract_info info = .error msg) ∧
    (∀ (info : ProbeInfo) (s : StreamInfo),
      info.streams.find? (fun t => t.codec_type == str "video") = some s →
      (¬ ∃ a b na nb, splitOn '/' s.r_frame_rate = [a, b] ∧
        parseRat a = some na ∧ parseRat b = some nb) →
      ∃ msg, extract_info info = .error msg) ∧
    (∀ (info : ProbeInfo) (s : StreamInfo) (wd ht : Nat) (q na nb : ℚ)
      (a b : List Char),
      info.streams.find? (fun t => t.codec_type == str "video") = some s →
      s.width = some wd → s.height = some ht →
      parseRat info.format.duration = some q →
      splitOn '/' s.r_frame_rate = [a, b] →
      parseRat a = some na → parseRat b = some nb →
      extract_info info = .ok (⟨wd, ht⟩, Duration.from_seconds q, na / nb)) := by
  refine ⟨?_, ?_, ?_, ?_⟩
  · intro info h
    have hf : info.streams.find? (fun t => t.codec_type == str "video") = none :=
      List.find?_eq_none.mpr (fun t ht => by simpa using h t ht)
    unfold extract_info
    rw [hf]
  · intro info s hf hwh
    unfold extract_info
    rw [hf]
    dsimp only
    rcases hwh with hw | hht
    · rw [hw]
      exact ⟨_, rfl⟩
    · cases hw : s.width with
      | none => exact ⟨_, rfl⟩
      | some wd =>
        dsimp only
        rw [hht]
        exact ⟨_, rfl⟩
  · intro info s hf hno
    unfold extract_info
    rw [hf]
    dsimp only
    cases hw : s.width with
    | none => exact ⟨_, rfl⟩
    | some wd =>
      dsimp only
      cases hht : s.height with
      | none => exact ⟨_, rfl⟩
      | some ht =>
        dsimp only
        cases hd : parseRat info.format.duration with
        | none => exact ⟨_, rfl⟩
        | some q =>
          dsimp only
          cases hsp : splitOn '/' s.r_frame_rate with
          | nil => exact ⟨_, rfl⟩
          | cons a l =>
            cases hl : l with
            | nil => exact ⟨_, rfl⟩
            | cons b l2 =>
              cases hl2 : l2 with
              | cons c l3 => exact ⟨_, rfl⟩
              | nil =>
                dsimp only
                cases ha : parseRat a with
                | none => exact ⟨_, rfl⟩
                | some na =>
                  dsimp only
                  cases hb : parseRat b with
                  | none => exact ⟨_, rfl⟩
                  | some nb =>
                    subst hl hl2
                    exact absurd ⟨a, b, na, nb, hsp, ha, hb⟩ hno
  · intro info s wd ht q na nb a b hf hw hht hd hsp ha hb
    unfold extract_info
    rw [hf]
    dsimp only
    rw [hw]
    dsimp only
    rw [hht]
    dsimp only
    rw [hd]
    dsimp only
    rw [hsp]
    dsimp only
    rw [ha]
    dsimp only
    rw [hb]

/-- Witness for C6: extraction succeeds on the sample probe document,
returning the video stream's resolution, the converted duration, and the
parsed rational frame rate. -/
theorem extract_info_cases_witness :
    extract_info sampleProbe =
      .ok (⟨1920, 1080⟩, Duration.from_seconds ((10 : Nat) : ℚ),
        ((30 : Nat) : ℚ) / ((1 : Nat) : ℚ)) :=
  extract_info_cases.2.2.2 sampleProbe
    ⟨some 1920, some 1080, str "video", str "30/1"⟩
    1920 1080 ((10 : Nat) : ℚ) ((30 : Nat) : ℚ) ((1 : Nat) : ℚ)
    (str "30") (str "1")
    (by decide) rfl rfl rfl (by decide) rfl rfl

/-! ### Claim C7 -/

/-- C7: the FPS and width console lines are read but never used: two runs
that differ only in those two inputs have identical behaviour — the same
external invocations (hence identical filter-graph strings and arguments,
which are always built from the probed fps and probed width) and the same
exit. -/
theorem overrides_ignored (w : World) (fpsText widthText : List Char) :
    mainModel { w with fpsInput := fpsText, widthInput := widthText } = mainModel w :=
  rfl

/-! ### Claim C8 -/

/-- C8: external calls happen in the fixed order probe, thumbnails,
palette, encode, as a prefix of that sequence; a failing first ffmpeg call
prevents the palette and encode calls, and a failing palette call prevents
the encode call. -/
theorem pipeline_sequencing (w : World) :
    ((mainModel w).calls.map Cmd.tag = [] ∨
      (mainModel w).calls.map Cmd.tag = [.probe] ∨
      (mainModel w).calls.map Cmd.tag = [.probe, .thumbnails] ∨
      (mainModel w).calls.map Cmd.tag = [.probe, .thumbnails, .palette] ∨
      (mainModel w).calls.map Cmd.tag = [.probe, .thumbnails, .palette, .encode]) ∧
    (w.thumbOk = false →
      CallTag.palette ∉ (mainModel w).calls.map Cmd.tag ∧
      CallTag.encode ∉ (mainModel w).calls.map Cmd.tag) ∧
    (w.paletteOk = false → CallTag.encode ∉ (mainModel w).calls.map Cmd.tag) := by
  cases hr : mainModel w with
  | mk ex calls =>
    unfold mainModel at hr
    repeat' split at hr
    all_goals (rw [RunResult.mk.injEq] at hr; obtain ⟨he, hc⟩ := hr; subst hc)
    all_goals simp_all [probeCmd]

/-- Witness for C8: in the sample run whose thumbnail call fails, no
palette and no encode call is made. -/
theorem pipeline_sequencing_witness :
    CallTag.palette ∉ (mainModel sampleWorldThumbFail).calls.map Cmd.tag ∧
      CallTag.encode ∉ (mainModel sampleWorldThumbFail).calls.map Cmd.tag :=
  (pipeline_sequencing sampleWorldThumbFail).2.1 rfl

/-! ### Claim C9 -/

/-- C9: with an argument count other than exactly one input file, the run
prints usage and exits with code zero, making no external call at all;
`usage` happens only in that case, and every aborting error exits
non-zero. -/
theorem usage_exit_behavior :
    (∀ w : World, w.argv.length ≠ 2 → mainModel w = ⟨.usage, []⟩) ∧
    (∀ w : World, (mainModel w).exit = .usage → w.argv.length ≠ 2) ∧
    RunExit.code .usage = 0 ∧
    (∀ msg, RunExit.code (.failure msg) ≠ 0) := by
  refine ⟨?_, ?_, rfl, fun msg => by simp [RunExit.code]⟩
  · intro w h
    unfold mainModel
    rcases hw : w.argv with _ | ⟨a, _ | ⟨b, _ | ⟨c, rest⟩⟩⟩
    · rfl
    · rfl
    · exact absurd (by rw [hw]; rfl) h
    · rfl
  · intro w h hlen
    obtain ⟨a, b, hab⟩ := List.length_eq_two.mp hlen
    cases hr : mainModel w with
    | mk ex calls =>
      rw [hr] at h
      simp only at h
      subst h
      unfold mainModel at hr
      rw [hab] at hr
      repeat' split at hr
      all_goals (rw [RunResult.mk.injEq] at hr; exact absurd hr.1.symm (by simp))

/-- Witness for C9: a run with an empty argument vector exits through the
usage path with no external calls. -/
theorem usage_exit_behavior_witness :
    mainModel sampleWorldUsage = ⟨.usage, []⟩ :=
  usage_exit_behavior.1 sampleWorldUsage (by decide)

end GifRs
